import Mathlib

/-!
Verification of the retrieval-and-grounded-generation pipeline of the
HRAssistantAgent repository.

The Python sources are shallowly embedded:
  * text is `List Char` (for the chunker) or `String` (for the answer module);
  * Python `str.strip()` / slicing are modelled by `pyStrip` / `pySlice`;
  * the possibly non-terminating `while` loop of `chunk_text` is modelled with
    fuel, returning `none` when the fuel runs out (i.e. when the Python loop
    would still be running);
  * external providers (embedding, generation, vector store) are modelled as
    an environment of call outcomes, and the embedded functions additionally
    return the list of external calls they perform, so that "no provider is
    invoked" is a provable statement.
-/

namespace HRAssistant

/-- Python's default whitespace set for `str.strip()` restricted to ASCII
(the repository's documents and questions; Unicode spaces are out of scope). -/
def isPySpace (c : Char) : Bool :=
  c = ' ' || c = '\t' || c = '\n' || c = '\r' || c = '\x0b' || c = '\x0c'

/-- Python `s.strip()` on a list of characters. -/
def pyStrip (l : List Char) : List Char :=
  ((l.dropWhile isPySpace).reverse.dropWhile isPySpace).reverse

/-- Python `s.strip()` on a `String`. -/
def pyStripStr (s : String) : String :=
  String.mk (pyStrip s.data)

/-- Python slice `text[a:b]` for `0 ≤ a ≤ b` (indices clipped to the length,
as Python does). -/
def pySlice (l : List Char) (a b : Nat) : List Char :=
  (l.drop a).take (b - a)

/-!
## Chunker — `src/docs.py`, `chunk_text`

```python
def chunk_text(text, chunk_size=1200, chunk_overlap=200):
    chunks = []
    start = 0
    text_len = len(text)
    while start < text_len:
        end = start + chunk_size
        chunk = text[start:end]
        chunks.append((chunk.strip(), start, min(end, text_len)))
        start = end - chunk_overlap
        if start < 0:
            start = 0
    return chunks
```

`start = end - chunk_overlap` clamped below at `0` is exactly truncated
subtraction on `Nat`.  The loop is embedded with fuel: `none` means the fuel
was exhausted while the loop guard still held.
-/

/-- One emitted chunk: `(chunk.strip(), start, min(end, text_len))`. -/
abbrev ChunkTriple := List Char × Nat × Nat

/-- The `while` loop of `chunk_text`, with fuel. -/
def chunk_text_loop (text : List Char) (chunk_size chunk_overlap : Nat) :
    Nat → Nat → Option (List ChunkTriple)
  | fuel, start =>
    if start < text.length then
      match fuel with
      | 0 => none
      | fuel + 1 =>
        let endPos := start + chunk_size
        let chunk := pyStrip (pySlice text start endPos)
        match chunk_text_loop text chunk_size chunk_overlap fuel (endPos - chunk_overlap) with
        | none => none
        | some rest => some ((chunk, start, min endPos text.length) :: rest)
    else
      some []

/-- `chunk_text(text, chunk_size, chunk_overlap)`.  Fuel `text.length + 1`
suffices whenever `chunk_size > chunk_overlap` (proved below); `none` models
the infinite loop that the Python code runs into otherwise. -/
def chunk_text (text : List Char) (chunk_size chunk_overlap : Nat) :
    Option (List ChunkTriple) :=
  chunk_text_loop text chunk_size chunk_overlap (text.length + 1) 0

/-! ### Basic lemmas about the chunker loop -/

lemma chunk_text_loop_exit (text : List Char) (cs co fuel start : Nat)
    (h : text.length ≤ start) :
    chunk_text_loop text cs co fuel start = some [] := by
  rw [chunk_text_loop.eq_def]
  simp [Nat.not_lt.mpr h]

lemma chunk_text_loop_succ (text : List Char) (cs co fuel start : Nat) :
    chunk_text_loop text cs co (fuel + 1) start =
      if start < text.length then
        (chunk_text_loop text cs co fuel (start + cs - co)).map
          (fun rest =>
            (pyStrip (pySlice text start (start + cs)), start,
              min (start + cs) text.length) :: rest)
      else some [] := by
  rw [chunk_text_loop.eq_def]
  by_cases h : start < text.length
  · simp only [if_pos h]
    cases chunk_text_loop text cs co fuel (start + cs - co) <;> rfl
  · simp [h]

lemma pyStrip_length_le (l : List Char) : (pyStrip l).length ≤ l.length := by
  unfold pyStrip
  simp only [List.length_reverse]
  calc ((l.dropWhile isPySpace).reverse.dropWhile isPySpace).length
      ≤ (l.dropWhile isPySpace).reverse.length :=
        (List.dropWhile_sublist _).length_le
    _ = (l.dropWhile isPySpace).length := List.length_reverse _
    _ ≤ l.length := (List.dropWhile_sublist _).length_le

/-- Main invariant of the `chunk_text` loop: with enough fuel the loop
completes, and every triple it emits is of the form
`(pyStrip text[s : s+cs], s, min (s+cs) len)` for some `s < len` at or past
the loop's entry position. -/
lemma chunk_text_loop_total (text : List Char) (cs co : Nat) (h : co < cs) :
    ∀ fuel start, text.length ≤ start + fuel →
      ∃ l, chunk_text_loop text cs co fuel start = some l ∧
        ∀ c s e, (c, s, e) ∈ l →
          start ≤ s ∧ s < text.length ∧
          c = pyStrip (pySlice text s (s + cs)) ∧ e = min (s + cs) text.length := by
  intro fuel
  induction fuel with
  | zero =>
    intro start hf
    exact ⟨[], chunk_text_loop_exit _ _ _ _ _ (by omega), by simp⟩
  | succ n ih =>
    intro start hf
    by_cases hs : start < text.length
    · obtain ⟨l, hl, hmem⟩ := ih (start + cs - co) (by omega)
      refine ⟨(pyStrip (pySlice text start (start + cs)), start,
          min (start + cs) text.length) :: l,
        by rw [chunk_text_loop_succ, if_pos hs, hl]; rfl, ?_⟩
      intro c s e hce
      rcases List.mem_cons.mp hce with h1 | h1
      · obtain ⟨hc, hse⟩ := Prod.mk.injEq .. ▸ h1
        obtain ⟨hs', he⟩ := Prod.mk.injEq .. ▸ hse
        subst hc; subst hs'; subst he
        exact ⟨le_refl _, hs, rfl, rfl⟩
      · obtain ⟨h2, h3, h4, h5⟩ := hmem c s e h1
        exact ⟨by omega, h3, h4, h5⟩
    · exact ⟨[], by rw [chunk_text_loop_succ, if_neg hs], by simp⟩

/-! ### Claim theorems about the chunker -/

/-- **C2.** For every `chunk_size > chunk_overlap ≥ 0` and every text,
`chunk_text` terminates (the fueled loop completes, returning `some`), and
every emitted triple `(chunk, start, end)` satisfies
`0 ≤ start < end ≤ len(text)`. -/
theorem chunk_text_terminates_and_bounds (text : List Char) (chunk_size chunk_overlap : Nat)
    (h : chunk_overlap < chunk_size) :
    ∃ l, chunk_text text chunk_size chunk_overlap = some l ∧
      ∀ c s e, (c, s, e) ∈ l → 0 ≤ s ∧ s < e ∧ e ≤ text.length := by
  obtain ⟨l, hl, hm⟩ := chunk_text_loop_total text chunk_size chunk_overlap h
    (text.length + 1) 0 (by omega)
  refine ⟨l, hl, fun c s e hmem => ?_⟩
  obtain ⟨_, hs, _, he⟩ := hm c s e hmem
  subst he
  omega

/-- Witness for C2 at `text = "ab"`, `chunk_size = 2`, `chunk_overlap = 0`. -/
theorem chunk_text_terminates_and_bounds_witness :
    (0 : Nat) < 2 ∧
    ∃ l, chunk_text ['a', 'b'] 2 0 = some l ∧
      ∀ c s e, (c, s, e) ∈ l → 0 ≤ s ∧ s < e ∧ e ≤ (['a', 'b'] : List Char).length :=
  ⟨by decide, chunk_text_terminates_and_bounds ['a', 'b'] 2 0 (by decide)⟩

/-- **C3 counterexample.** The claim says: `0 < len(text) ≤ chunk_size` (with
`chunk_size > chunk_overlap ≥ 0`) implies exactly one chunk.  With
`text = "aaa"` (length 3 ≤ chunk_size 3) and `chunk_overlap = 1` the code
emits **two** chunks: the second window starts at
`chunk_size - chunk_overlap = 2 < 3`. -/
theorem chunk_text_short_text_two_chunks :
    (['a', 'a', 'a'] : List Char).length = 3 ∧ (3 : Nat) ≤ 3 ∧ (1 : Nat) < 3 ∧
    chunk_text ['a', 'a', 'a'] 3 1 =
      some [(['a', 'a', 'a'], 0, 3), (['a'], 2, 3)] := by
  decide

/-- **C3 amended.** For every text with
`0 < len(text) ≤ chunk_size - chunk_overlap` (and
`chunk_size > chunk_overlap ≥ 0`), `chunk_text` yields exactly one chunk,
whose offsets span the whole text. -/
theorem chunk_text_single_chunk (text : List Char) (chunk_size chunk_overlap : Nat)
    (h : chunk_overlap < chunk_size) (h1 : 0 < text.length)
    (h2 : text.length ≤ chunk_size - chunk_overlap) :
    chunk_text text chunk_size chunk_overlap = some [(pyStrip text, 0, text.length)] := by
  unfold chunk_text
  rw [chunk_text_loop_succ, if_pos h1,
    chunk_text_loop_exit _ _ _ _ _ (by omega)]
  have hslice : pySlice text 0 (0 + chunk_size) = text := by
    unfold pySlice
    simp only [List.drop_zero]
    exact List.take_of_length_le (by omega)
  have hmin : min (0 + chunk_size) text.length = text.length := by omega
  rw [hslice, hmin]
  rfl

/-- Witness for the amended C3 at `text = "a"`, `chunk_size = 3`,
`chunk_overlap = 1`. -/
theorem chunk_text_single_chunk_witness :
    (1 : Nat) < 3 ∧ 0 < (['a'] : List Char).length ∧
      (['a'] : List Char).length ≤ 3 - 1 ∧
    chunk_text ['a'] 3 1 = some [(pyStrip ['a'], 0, (['a'] : List Char).length)] :=
  ⟨by decide, by decide, by decide,
    chunk_text_single_chunk ['a'] 3 1 (by decide) (by decide) (by decide)⟩

/-- **C9.** Every emitted chunk stores the window substring
`text[start : start+chunk_size]` with leading/trailing whitespace stripped,
while the stored offsets are the untrimmed window bounds (`end` clipped to
`len(text)`); hence the stored text's length is at most `end - start`. -/
theorem chunk_text_trimmed_text_untrimmed_offsets (text : List Char)
    (chunk_size chunk_overlap : Nat) (h : chunk_overlap < chunk_size) :
    ∃ l, chunk_text text chunk_size chunk_overlap = some l ∧
      ∀ c s e, (c, s, e) ∈ l →
        c = pyStrip (pySlice text s (s + chunk_size)) ∧
        e = min (s + chunk_size) text.length ∧
        c.length ≤ e - s := by
  obtain ⟨l, hl, hm⟩ := chunk_text_loop_total text chunk_size chunk_overlap h
    (text.length + 1) 0 (by omega)
  refine ⟨l, hl, fun c s e hmem => ?_⟩
  obtain ⟨_, hs, hc, he⟩ := hm c s e hmem
  refine ⟨hc, he, ?_⟩
  have h1 : c.length ≤ (pySlice text s (s + chunk_size)).length :=
    hc ▸ pyStrip_length_le _
  have h2 : (pySlice text s (s + chunk_size)).length =
      min (s + chunk_size - s) (text.length - s) := by
    unfold pySlice; simp
  omega

/-- Witness for C9 at `text = " ab "`, `chunk_size = 3`, `chunk_overlap = 1`. -/
theorem chunk_text_trimmed_text_untrimmed_offsets_witness :
    (1 : Nat) < 3 ∧
    ∃ l, chunk_text [' ', 'a', 'b', ' '] 3 1 = some l ∧
      ∀ c s e, (c, s, e) ∈ l →
        c = pyStrip (pySlice [' ', 'a', 'b', ' '] s (s + 3)) ∧
        e = min (s + 3) ([' ', 'a', 'b', ' '] : List Char).length ∧
        c.length ≤ e - s :=
  ⟨by decide, chunk_text_trimmed_text_untrimmed_offsets [' ', 'a', 'b', ' '] 3 1 (by decide)⟩

/-- **C8.** For any text of exactly 2500 characters, `chunk_text` with
`chunk_size = 1200` and `chunk_overlap = 200` emits exactly three chunks with
start offsets `[0, 1000, 2000]`, each window spanning `[start, start + 1200)`
clipped to the text length, the last chunk spanning `[2000, 2500)`. -/
theorem chunk_text_scenario_2500 (text : List Char) (h : text.length = 2500) :
    chunk_text text 1200 200 =
      some [(pyStrip (pySlice text 0 1200), 0, 1200),
            (pyStrip (pySlice text 1000 2200), 1000, 2200),
            (pyStrip (pySlice text 2000 3200), 2000, 2500)] := by
  unfold chunk_text
  rw [h]
  rw [chunk_text_loop_succ, if_pos (show 0 < text.length by omega)]
  rw [show (0 + 1200 - 200 : Nat) = 1000 from by norm_num]
  nth_rewrite 1 [show (2500 : Nat) = 2499 + 1 from by norm_num]
  rw [chunk_text_loop_succ, if_pos (show (1000 : Nat) < text.length by omega)]
  rw [show (1000 + 1200 - 200 : Nat) = 2000 from by norm_num]
  nth_rewrite 1 [show (2499 : Nat) = 2498 + 1 from by norm_num]
  rw [chunk_text_loop_succ, if_pos (show (2000 : Nat) < text.length by omega)]
  rw [chunk_text_loop_exit text 1200 200 2498 (2000 + 1200 - 200) (by omega)]
  simp only [Option.map_some', h, pySlice]
  norm_num [Nat.min_def]

/-- Witness for C8 at `text = 2500 copies of 'x'`. -/
theorem chunk_text_scenario_2500_witness :
    (List.replicate 2500 'x').length = 2500 ∧
    chunk_text (List.replicate 2500 'x') 1200 200 =
      some [(pyStrip (pySlice (List.replicate 2500 'x') 0 1200), 0, 1200),
            (pyStrip (pySlice (List.replicate 2500 'x') 1000 2200), 1000, 2200),
            (pyStrip (pySlice (List.replicate 2500 'x') 2000 3200), 2000, 2500)] :=
  ⟨List.length_replicate 2500 'x',
    chunk_text_scenario_2500 (List.replicate 2500 'x') (List.length_replicate 2500 'x')⟩

/-!
## Deduplicator — `src/answer_generator_local.py`, `dedupe_chunks_preserve_order`

```python
def dedupe_chunks_preserve_order(chunks, metas, dists):
    seen = set()
    out_chunks, out_metas, out_dists = [], [], []
    for c, m, d in zip(chunks, metas, dists):
        key = c.strip()[:500]  # use prefix as identity (trim long text)
        if key in seen:
            continue
        seen.add(key)
        out_chunks.append(c)
        out_metas.append(m)
        out_dists.append(d)
    return out_chunks, out_metas, out_dists
```

The loop over `zip(chunks, metas, dists)` is embedded as a recursion over the
zipped list (Lean's `List.zip`, like Python's `zip`, truncates to the shortest
input), with the `seen` set carried as the list of keys inserted so far.
The three parallel output lists are recovered by projection.  Metadata and
distance types are parameters, as the Python code never inspects them.
-/

/-- Identity key of a chunk: `c.strip()[:500]`. -/
def dedupeKey (c : List Char) : List Char :=
  (pyStrip c).take 500

/-- The `for c, m, d in zip(...)` loop of `dedupe_chunks_preserve_order`. -/
def dedupe_loop {μ δ : Type} (seen : List (List Char)) :
    List (List Char × μ × δ) → List (List Char × μ × δ)
  | [] => []
  | (c, m, d) :: rest =>
    if dedupeKey c ∈ seen then dedupe_loop seen rest
    else (c, m, d) :: dedupe_loop (dedupeKey c :: seen) rest

/-- `dedupe_chunks_preserve_order(chunks, metas, dists)`. -/
def dedupe_chunks_preserve_order {μ δ : Type} (chunks : List (List Char))
    (metas : List μ) (dists : List δ) :
    List (List Char) × List μ × List δ :=
  let out := dedupe_loop [] (chunks.zip (metas.zip dists))
  (out.map (·.1), out.map (·.2.1), out.map (·.2.2))

/-! ### Lemmas about the deduplicator -/

lemma zip_proj_eq {α β γ : Type} :
    ∀ l : List (α × β × γ),
      (l.map (·.1)).zip ((l.map (·.2.1)).zip (l.map (·.2.2))) = l
  | [] => rfl
  | (a, b, c) :: rest => by
    simp only [List.map_cons, List.zip_cons_cons]
    rw [zip_proj_eq rest]

lemma dedupe_loop_sublist {μ δ : Type} (seen : List (List Char)) :
    ∀ l : List (List Char × μ × δ), (dedupe_loop seen l).Sublist l := by
  intro l
  induction l generalizing seen with
  | nil => exact List.Sublist.refl _
  | cons t rest ih =>
    obtain ⟨c, m, d⟩ := t
    rw [dedupe_loop]
    by_cases h : dedupeKey c ∈ seen
    · rw [if_pos h]; exact (ih seen).cons _
    · rw [if_neg h]; exact (ih (dedupeKey c :: seen)).cons₂ _

lemma dedupe_loop_key_not_seen {μ δ : Type} (seen : List (List Char)) :
    ∀ l : List (List Char × μ × δ), ∀ t ∈ dedupe_loop seen l, dedupeKey t.1 ∉ seen := by
  intro l
  induction l generalizing seen with
  | nil => intro t ht; simp [dedupe_loop] at ht
  | cons u rest ih =>
    obtain ⟨c, m, d⟩ := u
    intro t ht
    rw [dedupe_loop] at ht
    by_cases h : dedupeKey c ∈ seen
    · rw [if_pos h] at ht; exact ih seen t ht
    · rw [if_neg h] at ht
      rcases List.mem_cons.mp ht with h1 | h1
      · subst h1; exact h
      · exact fun hc => ih (dedupeKey c :: seen) t h1 (List.mem_cons_of_mem _ hc)

lemma dedupe_loop_pairwise {μ δ : Type} (seen : List (List Char)) :
    ∀ l : List (List Char × μ × δ),
      (dedupe_loop seen l).Pairwise (fun a b => dedupeKey a.1 ≠ dedupeKey b.1) := by
  intro l
  induction l generalizing seen with
  | nil => exact List.Pairwise.nil
  | cons u rest ih =>
    obtain ⟨c, m, d⟩ := u
    rw [dedupe_loop]
    by_cases h : dedupeKey c ∈ seen
    · rw [if_pos h]; exact ih seen
    · rw [if_neg h]
      refine List.Pairwise.cons ?_ (ih (dedupeKey c :: seen))
      intro t ht hkey
      exact dedupe_loop_key_not_seen _ _ t ht (hkey ▸ List.mem_cons_self _ _)

lemma dedupe_loop_first_occurrence {μ δ : Type} :
    ∀ (l : List (List Char × μ × δ)) (seen : List (List Char)) (i : Nat)
      (hi : i < l.length),
      dedupeKey (l.get ⟨i, hi⟩).1 ∉ seen →
      (∀ j (hj : j < i), dedupeKey (l.get ⟨j, Nat.lt_trans hj hi⟩).1 ≠ dedupeKey (l.get ⟨i, hi⟩).1) →
      l.get ⟨i, hi⟩ ∈ dedupe_loop seen l := by
  intro l
  induction l with
  | nil => intro seen i hi; simp at hi
  | cons u rest ih =>
    obtain ⟨c, m, d⟩ := u
    intro seen i hi hseen hfirst
    rw [dedupe_loop]
    match i with
    | 0 =>
      rw [if_neg (by simpa using hseen)]
      exact List.mem_cons_self _ _
    | j + 1 =>
      by_cases h : dedupeKey c ∈ seen
      · rw [if_pos h]
        exact ih seen j (by simpa using hi) (by simpa using hseen)
          (fun j' hj' => by
            have := hfirst (j' + 1) (by omega)
            simpa using this)
      · rw [if_neg h]
        refine List.mem_cons_of_mem _ ?_
        refine ih (dedupeKey c :: seen) j (by simpa using hi) ?_
          (fun j' hj' => by
            have := hfirst (j' + 1) (by omega)
            simpa using this)
        intro hmem
        rcases List.mem_cons.mp hmem with h1 | h1
        · exact hfirst 0 (by omega) (by simpa using h1.symm)
        · exact absurd h1 (by simpa using hseen)

/-! ### Claim theorem about the deduplicator -/

/-- **C4.** For every aligned input `(chunks, metas, dists)` (viewed, as the
Python `zip` does, as the list `l` of triples), `dedupe_chunks_preserve_order`
returns a subsequence of `l` in the original relative order, no two kept
entries share the identity key (first 500 characters of the trimmed chunk
text), and for each key the first occurrence is kept — with its own metadata
and distance — while later duplicates are dropped. -/
theorem dedupe_chunks_preserve_order_spec {μ δ : Type} (chunks : List (List Char))
    (metas : List μ) (dists : List δ) :
    ((dedupe_chunks_preserve_order chunks metas dists).1.zip
        ((dedupe_chunks_preserve_order chunks metas dists).2.1.zip
          (dedupe_chunks_preserve_order chunks metas dists).2.2)).Sublist
      (chunks.zip (metas.zip dists)) ∧
    ((dedupe_chunks_preserve_order chunks metas dists).1.zip
        ((dedupe_chunks_preserve_order chunks metas dists).2.1.zip
          (dedupe_chunks_preserve_order chunks metas dists).2.2)).Pairwise
      (fun a b => dedupeKey a.1 ≠ dedupeKey b.1) ∧
    ∀ i (hi : i < (chunks.zip (metas.zip dists)).length),
      (∀ j (hj : j < i),
        dedupeKey ((chunks.zip (metas.zip dists)).get ⟨j, Nat.lt_trans hj hi⟩).1 ≠
          dedupeKey ((chunks.zip (metas.zip dists)).get ⟨i, hi⟩).1) →
      (chunks.zip (metas.zip dists)).get ⟨i, hi⟩ ∈
        ((dedupe_chunks_preserve_order chunks metas dists).1.zip
          ((dedupe_chunks_preserve_order chunks metas dists).2.1.zip
            (dedupe_chunks_preserve_order chunks metas dists).2.2)) := by
  have hrezip : ((dedupe_chunks_preserve_order chunks metas dists).1.zip
      ((dedupe_chunks_preserve_order chunks metas dists).2.1.zip
        (dedupe_chunks_preserve_order chunks metas dists).2.2)) =
      dedupe_loop [] (chunks.zip (metas.zip dists)) := by
    simp only [dedupe_chunks_preserve_order]
    exact zip_proj_eq _
  rw [hrezip]
  refine ⟨dedupe_loop_sublist [] _, dedupe_loop_pairwise [] _, ?_⟩
  intro i hi hfirst
  exact dedupe_loop_first_occurrence _ [] i hi (by simp) hfirst

/-- Witness for C4 at a 3-hit input whose first and third chunks share the
identity key (`"a"` and `" a "` both strip to `"a"`): the duplicate third hit
is dropped, the first two are kept in order with their metadata/distances. -/
theorem dedupe_chunks_preserve_order_spec_witness :
    ((dedupe_chunks_preserve_order [['a'], ['b'], [' ', 'a', ' ']]
          ([0, 1, 2] : List Nat) ([10, 11, 12] : List Nat)).1.zip
        ((dedupe_chunks_preserve_order [['a'], ['b'], [' ', 'a', ' ']]
            ([0, 1, 2] : List Nat) ([10, 11, 12] : List Nat)).2.1.zip
          (dedupe_chunks_preserve_order [['a'], ['b'], [' ', 'a', ' ']]
            ([0, 1, 2] : List Nat) ([10, 11, 12] : List Nat)).2.2)).Sublist
      (([['a'], ['b'], [' ', 'a', ' ']] : List (List Char)).zip
        (([0, 1, 2] : List Nat).zip ([10, 11, 12] : List Nat))) ∧
    ((dedupe_chunks_preserve_order [['a'], ['b'], [' ', 'a', ' ']]
          ([0, 1, 2] : List Nat) ([10, 11, 12] : List Nat)).1.zip
        ((dedupe_chunks_preserve_order [['a'], ['b'], [' ', 'a', ' ']]
            ([0, 1, 2] : List Nat) ([10, 11, 12] : List Nat)).2.1.zip
          (dedupe_chunks_preserve_order [['a'], ['b'], [' ', 'a', ' ']]
            ([0, 1, 2] : List Nat) ([10, 11, 12] : List Nat)).2.2)).Pairwise
      (fun a b => dedupeKey a.1 ≠ dedupeKey b.1) ∧
    ∀ i (hi : i < ((([['a'], ['b'], [' ', 'a', ' ']] : List (List Char)).zip
        (([0, 1, 2] : List Nat).zip ([10, 11, 12] : List Nat)))).length),
      (∀ j (hj : j < i),
        dedupeKey (((([['a'], ['b'], [' ', 'a', ' ']] : List (List Char)).zip
            (([0, 1, 2] : List Nat).zip ([10, 11, 12] : List Nat)))).get
              ⟨j, Nat.lt_trans hj hi⟩).1 ≠
          dedupeKey (((([['a'], ['b'], [' ', 'a', ' ']] : List (List Char)).zip
            (([0, 1, 2] : List Nat).zip ([10, 11, 12] : List Nat)))).get ⟨i, hi⟩).1) →
      ((([['a'], ['b'], [' ', 'a', ' ']] : List (List Char)).zip
        (([0, 1, 2] : List Nat).zip ([10, 11, 12] : List Nat)))).get ⟨i, hi⟩ ∈
        ((dedupe_chunks_preserve_order [['a'], ['b'], [' ', 'a', ' ']]
            ([0, 1, 2] : List Nat) ([10, 11, 12] : List Nat)).1.zip
          ((dedupe_chunks_preserve_order [['a'], ['b'], [' ', 'a', ' ']]
              ([0, 1, 2] : List Nat) ([10, 11, 12] : List Nat)).2.1.zip
            (dedupe_chunks_preserve_order [['a'], ['b'], [' ', 'a', ' ']]
              ([0, 1, 2] : List Nat) ([10, 11, 12] : List Nat)).2.2)) :=
  dedupe_chunks_preserve_order_spec [['a'], ['b'], [' ', 'a', ' ']] [0, 1, 2] [10, 11, 12]

/-!
## Hybrid orchestrator — `src/answer_generator_hybrid.py`, `answer`

The external providers (Gemini client creation, embedding, the Chroma store
query, generation) are modelled by an environment `AnswerEnv` of call
outcomes: a Python call that raises is an `Except.error` carrying `str(e)`.
`traceback.format_exc()` is an opaque string `env.trace`.

`_embed_text` either returns a vector or raises (its internal
response-shape probing only decides *which* of the two happens, so its
outcome is `env.embed`).  `_query_chroma` wraps a store failure as
`RuntimeError("Chroma query failed: {e}")`.  The query result is modelled by
its `"documents"` key: a list of lists of documents, a document being `none`
(Python `None`) or a string; `answer` reads `documents[0]` when the outer
list is non-empty.

Besides the returned string, the embedded `answer` also returns the ordered
list of provider calls it performed, so that "no external provider is
invoked" is provable.  A call that Python never reaches (e.g. after a
`NameError` on the unbound `gclient`) is not logged.

One known deviation of the code from a plain reading: when `_create_clients`
raises and `GEMINI_API_KEY` is falsy, the `except` block falls through
without returning, and the function continues with `gclient`, `collection`
unbound; any later use raises `NameError`, which the surrounding handlers
catch.  The flag `gclientOk` models whether `gclient` is bound.
-/

/-- One external provider interaction of `answer`. -/
inductive ProviderCall where
  | createClients : ProviderCall
  | geminiClientInit : ProviderCall
  | embed (text : String) : ProviderCall
  | storeQuery (nResults : Nat) : ProviderCall
  | generate (prompt : String) : ProviderCall
  deriving DecidableEq, Repr

/-- Environment of external-call outcomes for one `answer` run. -/
structure AnswerEnv where
  gemini_api_key : Option String
  create_clients : Except String Unit
  gemini_client_init : Except String Unit
  embed : String → Except String (List Int)
  store_query : Except String (List (List (Option String)))
  generate : String → Except String String
  trace : String

/-- `f"You are an HR assistant. Answer concisely: {question}"`. -/
def genericPrompt (question : String) : String :=
  "You are an HR assistant. Answer concisely: " ++ question

/-- The grounding prompt built from the retrieved context. -/
def groundedPrompt (question context : String) : String :=
  "You are an HR assistant. Use the provided company document excerpts below to answer the user's question. "
    ++ "If the documents do not contain the answer, say you don't know and offer a general guideline.\n\n"
    ++ "Context:\n" ++ context ++ "\n\nQuestion: " ++ question
    ++ "\n\nAnswer concisely and cite where relevant."

/-- Python truthiness of one retrieved document (`None` and `""` are falsy). -/
def pyTruthyDoc : Option String → Bool
  | none => false
  | some s => s != ""

/-- `[d for d in docs if d and isinstance(d, str)]`. -/
def pyFilterDocs (docs : List (Option String)) : List String :=
  docs.filterMap fun d =>
    match d with
    | none => none
    | some s => if s = "" then none else some s

/-- `str(NameError)` for the unbound `gclient` (see the module comment). -/
def nameErrorGclient : String :=
  "name " ++ String.mk ['\''] ++ "gclient" ++ String.mk ['\''] ++ " is not defined"

/-- The outer `except Exception as e` of the retrieval block: retry a generic
generation; if that fails too, report both failures. -/
def answerChromaFailed (env : AnswerEnv) (question : String) (e : String)
    (log : List ProviderCall) : String × List ProviderCall :=
  match env.generate (genericPrompt question) with
  | .ok gen =>
    ("(Chroma failed: " ++ e ++ ")\n\nGemini answer:\n\n" ++ gen,
      log ++ [ProviderCall.generate (genericPrompt question)])
  | .error e2 =>
    ("Both Chroma and Gemini failed:\nChroma error: " ++ e ++ "\nGemini error: " ++ e2
        ++ "\n\nTrace:\n" ++ env.trace,
      log ++ [ProviderCall.generate (genericPrompt question)])

/-- The retrieval block of `answer` (the big `try` after the query embedding
succeeded): query Chroma with `n_results=5`, ground on the hits, otherwise
fall back to a generic generation. -/
def answerRetrieval (env : AnswerEnv) (question : String) (log : List ProviderCall) :
    String × List ProviderCall :=
  match env.store_query with
  | .error qe =>
    answerChromaFailed env question ("Chroma query failed: " ++ qe)
      (log ++ [ProviderCall.storeQuery 5])
  | .ok docs_lists =>
    let docs : List (Option String) := docs_lists.headD []
    let log := log ++ [ProviderCall.storeQuery 5]
    if !docs.isEmpty && docs.any pyTruthyDoc then
      let top_docs := (pyFilterDocs docs).take 4
      let context := String.intercalate "\n\n---\n\n" top_docs
      let prompt := groundedPrompt question context
      match env.generate prompt with
      | .ok gen =>
        (gen ++ "\n\n(Used PDF context — " ++ toString top_docs.length ++ " chunks.)",
          log ++ [ProviderCall.generate prompt])
      | .error ge =>
        ("(Gemini generation failed: " ++ ge ++ ")\n\nTop retrieved chunks:\n\n"
            ++ String.intercalate "\n\n-----\n\n" top_docs,
          log ++ [ProviderCall.generate prompt])
    else
      match env.generate (genericPrompt question) with
      | .ok gen =>
        ("(No document hits — Gemini fallback)\n\n" ++ gen,
          log ++ [ProviderCall.generate (genericPrompt question)])
      | .error e =>
        -- the exception escapes the inner block and is caught by the outer
        -- `except Exception as e`, which retries a generic generation
        answerChromaFailed env question e
          (log ++ [ProviderCall.generate (genericPrompt question)])

/-- The part of `answer` after the `_create_clients` `try`/`except`.
`gclientOk` is whether `gclient` is bound (see the module comment). -/
def answerWithClients (env : AnswerEnv) (question : String) (use_hybrid : Bool)
    (gclientOk : Bool) (log : List ProviderCall) : String × List ProviderCall :=
  if !use_hybrid then
    if gclientOk then
      match env.generate (genericPrompt question) with
      | .ok gen => (gen, log ++ [ProviderCall.generate (genericPrompt question)])
      | .error e =>
        ("Gemini generation failed: " ++ e ++ "\n\n" ++ env.trace,
          log ++ [ProviderCall.generate (genericPrompt question)])
    else
      ("Gemini generation failed: " ++ nameErrorGclient ++ "\n\n" ++ env.trace, log)
  else
    if gclientOk then
      match env.embed question with
      | .error e =>
        ("Embedding failed: " ++ e ++ "\n\nTrace:\n" ++ env.trace,
          log ++ [ProviderCall.embed question])
      | .ok _qvec =>
        answerRetrieval env question (log ++ [ProviderCall.embed question])
    else
      ("Embedding failed: " ++ nameErrorGclient ++ "\n\nTrace:\n" ++ env.trace, log)

/-- `answer(question, use_hybrid)`: the primary callable.  Total — every
Python path `return`s a string, no exception escapes. -/
def answer (env : AnswerEnv) (question : String) (use_hybrid : Bool) :
    String × List ProviderCall :=
  if question = "" ∨ pyStripStr question = "" then
    ("Please provide a non-empty question.", [])
  else
    match env.create_clients with
    | .ok _ =>
      answerWithClients env question use_hybrid true [ProviderCall.createClients]
    | .error e =>
      match env.gemini_api_key with
      | some _ =>
        match env.gemini_client_init with
        | .ok _ =>
          match env.generate (genericPrompt question) with
          | .ok out =>
            ("(Gemini fallback — clients init failed)\n\n" ++ out,
              [ProviderCall.createClients, ProviderCall.geminiClientInit,
                ProviderCall.generate (genericPrompt question)])
          | .error _ =>
            ("Error creating clients: " ++ e ++ "\n\nTrace:\n" ++ env.trace,
              [ProviderCall.createClients, ProviderCall.geminiClientInit,
                ProviderCall.generate (genericPrompt question)])
        | .error _ =>
          ("Error creating clients: " ++ e ++ "\n\nTrace:\n" ++ env.trace,
            [ProviderCall.createClients, ProviderCall.geminiClientInit])
      | none =>
        -- `if GEMINI_API_KEY:` is false: the handler falls through and the
        -- function continues with `gclient`/`collection` unbound
        answerWithClients env question use_hybrid false [ProviderCall.createClients]

/-- A fully healthy environment, used to instantiate witnesses. -/
def envOkBase : AnswerEnv where
  gemini_api_key := some "k"
  create_clients := .ok ()
  gemini_client_init := .ok ()
  embed := fun _ => .ok [1]
  store_query := .ok [[some "docA", some "docB"]]
  generate := fun _ => .ok "GENERIC"
  trace := "TRACE"

/-- Environment whose embedding provider raises on every call. -/
def envEmbedFail : AnswerEnv :=
  { envOkBase with embed := fun _ => .error "boom" }

/-- Environment whose store returns five hits with a duplicated first chunk. -/
def envFiveHits : AnswerEnv :=
  { envOkBase with store_query := .ok [[some "A", some "A", some "B", some "C", some "D"]] }

/-! ### Claim theorems about the orchestrator -/

/-- **C7.** For every question that is empty or consists only of whitespace,
`answer` returns the user-facing validation message without raising (the
function is total) and without invoking any external provider: the call log
is empty — no client creation, no embed, no store query, no generation. -/
theorem answer_blank_question (env : AnswerEnv) (question : String) (use_hybrid : Bool)
    (h : pyStripStr question = "") :
    answer env question use_hybrid = ("Please provide a non-empty question.", []) := by
  unfold answer
  rw [if_pos (Or.inr h)]

/-- Witness for C7 at `question = "  "` in hybrid mode on a healthy
environment. -/
theorem answer_blank_question_witness :
    pyStripStr "  " = "" ∧
    answer envOkBase "  " true = ("Please provide a non-empty question.", []) :=
  ⟨by decide, answer_blank_question envOkBase "  " true (by decide)⟩

/-- **C1 counterexample.** The claim says an embed failure in hybrid mode
degrades to generic ungrounded generation, returning a result tagged as
ungrounded fallback containing the generic-generation text.  In this
environment generation works fine (it would return `"GENERIC"`), yet on an
embed failure `answer` returns the `"Embedding failed"` error report, and its
call log shows that no generation call is made at all — no fallback text is
produced. -/
theorem answer_embed_failure_counterexample :
    (answer envEmbedFail "What is the leave policy?" true).1 =
      "Embedding failed: boom\n\nTrace:\nTRACE" ∧
    (answer envEmbedFail "What is the leave policy?" true).2 =
      [ProviderCall.createClients, ProviderCall.embed "What is the leave policy?"] :=
  ⟨rfl, rfl⟩

/-- **C1 amended.** In hybrid mode, for every non-blank question, when client
creation succeeds and embedding the query fails, `answer` returns the
`"Embedding failed: ..."` error string (no exception escapes — the function
totally returns) and invokes neither the store nor the generation provider:
generic-generation degradation does not happen. -/
theorem answer_embed_failure (env : AnswerEnv) (question e : String)
    (hq : ¬(question = "" ∨ pyStripStr question = ""))
    (hc : env.create_clients = .ok ())
    (he : env.embed question = .error e) :
    answer env question true =
      ("Embedding failed: " ++ e ++ "\n\nTrace:\n" ++ env.trace,
        [ProviderCall.createClients, ProviderCall.embed question]) := by
  unfold answer
  rw [if_neg hq, hc]
  unfold answerWithClients
  rw [he]
  simp

/-- Witness for the amended C1. -/
theorem answer_embed_failure_witness :
    ¬(("What is the leave policy?" : String) = "" ∨
        pyStripStr "What is the leave policy?" = "") ∧
    envEmbedFail.create_clients = .ok () ∧
    envEmbedFail.embed "What is the leave policy?" = .error "boom" ∧
    answer envEmbedFail "What is the leave policy?" true =
      ("Embedding failed: " ++ "boom" ++ "\n\nTrace:\n" ++ envEmbedFail.trace,
        [ProviderCall.createClients, ProviderCall.embed "What is the leave policy?"]) :=
  ⟨by decide, rfl, rfl,
    answer_embed_failure envEmbedFail "What is the leave policy?" "boom"
      (by decide) rfl rfl⟩

/-- **C5 counterexample.** The claim says that with `use_hybrid=False`,
`answer` never performs ungrounded generic generation and instead performs
retrieval-based answering.  On a healthy environment with `use_hybrid=False`
the result is exactly the ungrounded generic-generation output, and the call
log contains one generic-prompt generation and no store query — no retrieval
happens at all. -/
theorem answer_non_hybrid_counterexample :
    answer envOkBase "What is the leave policy?" false =
      ("GENERIC",
        [ProviderCall.createClients,
          ProviderCall.generate (genericPrompt "What is the leave policy?")]) :=
  rfl

/-- **C5 amended.** With `use_hybrid=False` (and clients created), `answer`
performs *only* ungrounded generic generation: it calls the generation
provider once on the generic prompt, performs no embedding and no store
query, returns the generation output on success, and reports the generation
error directly to the caller on failure. -/
theorem answer_non_hybrid_generic_only (env : AnswerEnv) (question : String)
    (hq : ¬(question = "" ∨ pyStripStr question = ""))
    (hc : env.create_clients = .ok ()) :
    answer env question false =
      ((match env.generate (genericPrompt question) with
        | .ok gen => gen
        | .error e => "Gemini generation failed: " ++ e ++ "\n\n" ++ env.trace),
        [ProviderCall.createClients, ProviderCall.generate (genericPrompt question)]) := by
  unfold answer
  rw [if_neg hq, hc]
  unfold answerWithClients
  cases env.generate (genericPrompt question) <;> simp

/-- Witness for the amended C5. -/
theorem answer_non_hybrid_generic_only_witness :
    ¬(("q" : String) = "" ∨ pyStripStr "q" = "") ∧
    envOkBase.create_clients = .ok () ∧
    answer envOkBase "q" false =
      ((match envOkBase.generate (genericPrompt "q") with
        | .ok gen => gen
        | .error e => "Gemini generation failed: " ++ e ++ "\n\n" ++ envOkBase.trace),
        [ProviderCall.createClients, ProviderCall.generate (genericPrompt "q")]) :=
  ⟨by decide, rfl, answer_non_hybrid_generic_only envOkBase "q" (by decide) rfl⟩

/-- **C10.** In hybrid mode, when the store query succeeds and `documents[0]`
contains a truthy document, `answer` requests 5 results from the store
(`storeQuery 5` in the log), builds the grounding prompt from at most the
first 4 retrieved document strings (the filtered list truncated by
`[:4]` — with no deduplication: the context is exactly the order- and
duplicate-preserving `take 4`), and on generation success appends the tag
reporting the number of chunks used. -/
theorem answer_hybrid_grounded (env : AnswerEnv) (question : String)
    (docs_lists : List (List (Option String))) (v : List Int) (gen : String)
    (hq : ¬(question = "" ∨ pyStripStr question = ""))
    (hc : env.create_clients = .ok ())
    (hv : env.embed question = .ok v)
    (hs : env.store_query = .ok docs_lists)
    (hd : (docs_lists.headD []).any pyTruthyDoc = true)
    (hg : env.generate (groundedPrompt question
        (String.intercalate "\n\n---\n\n"
          ((pyFilterDocs (docs_lists.headD [])).take 4))) = .ok gen) :
    answer env question true =
      (gen ++ "\n\n(Used PDF context — "
          ++ toString ((pyFilterDocs (docs_lists.headD [])).take 4).length ++ " chunks.)",
        [ProviderCall.createClients, ProviderCall.embed question, ProviderCall.storeQuery 5,
          ProviderCall.generate (groundedPrompt question
            (String.intercalate "\n\n---\n\n"
              ((pyFilterDocs (docs_lists.headD [])).take 4)))]) ∧
    ((pyFilterDocs (docs_lists.headD [])).take 4).length ≤ 4 := by
  have hne : (docs_lists.headD []).isEmpty = false := by
    cases h : docs_lists.headD [] with
    | nil => rw [h] at hd; simp at hd
    | cons a l => rfl
  constructor
  · unfold answer
    rw [if_neg hq, hc]
    unfold answerWithClients
    rw [hv]
    simp only [Bool.not_true, Bool.false_eq_true, if_false, if_true]
    unfold answerRetrieval
    rw [hs]
    simp only [hne, hd, Bool.not_false, Bool.and_self, if_true, hg]
    simp
  · have := List.length_take 4 (pyFilterDocs (docs_lists.headD []))
    omega

/-- Witness for C10: five hits requested and returned, the first duplicated;
the context keeps the duplicate and is cut to 4 chunks. -/
theorem answer_hybrid_grounded_witness :
    ¬(("q" : String) = "" ∨ pyStripStr "q" = "") ∧
    envFiveHits.create_clients = .ok () ∧
    envFiveHits.embed "q" = .ok [1] ∧
    envFiveHits.store_query = .ok [[some "A", some "A", some "B", some "C", some "D"]] ∧
    ((([[some "A", some "A", some "B", some "C", some "D"]] :
        List (List (Option String))).headD []).any pyTruthyDoc = true) ∧
    (answer envFiveHits "q" true =
      ("GENERIC" ++ "\n\n(Used PDF context — "
          ++ toString ((pyFilterDocs (([[some "A", some "A", some "B", some "C", some "D"]] :
              List (List (Option String))).headD [])).take 4).length ++ " chunks.)",
        [ProviderCall.createClients, ProviderCall.embed "q", ProviderCall.storeQuery 5,
          ProviderCall.generate (groundedPrompt "q"
            (String.intercalate "\n\n---\n\n"
              ((pyFilterDocs (([[some "A", some "A", some "B", some "C", some "D"]] :
                  List (List (Option String))).headD [])).take 4)))]) ∧
      ((pyFilterDocs (([[some "A", some "A", some "B", some "C", some "D"]] :
          List (List (Option String))).headD [])).take 4).length ≤ 4) :=
  ⟨by decide, rfl, rfl, rfl, by decide,
    answer_hybrid_grounded envFiveHits "q"
      [[some "A", some "A", some "B", some "C", some "D"]] [1] "GENERIC"
      (by decide) rfl rfl rfl (by decide) rfl⟩

/-!
## Indexer — `src/ingest.py`, `index_document` (and `src/docs.py`, `clean_text`)

```python
def clean_text(s):
    s = s.replace("\r", "\n")
    s = re.sub(r"\n{3,}", "\n\n", s)
    return s.strip()

def index_document(file_path, collection_name=COLLECTION_DEFAULT, chunk_size=1200, chunk_overlap=200):
    raw = load_document(file_path)
    if not raw or not raw.strip():
        print(f"Skipping empty file: {file_path}")
        return
    text = clean_text(raw)
    chunks = chunk_text(text, chunk_size=chunk_size, chunk_overlap=chunk_overlap)
    docs, metadatas, ids, embeddings = [], [], [], []
    for i, (chunk, start, end) in enumerate(chunks):
        try:
            resp = gclient.models.embed_content(model=EMBED_MODEL, contents=[chunk])
        except Exception as e:
            continue
        vec = extract_vec_from_resp(resp)
        if not vec:
            continue
        doc_id = str(uuid.uuid4())
        docs.append(chunk); metadatas.append({...}); ids.append(doc_id); embeddings.append(vec)
    if not docs:
        print(f"No chunks indexed for {file_path}")
        return
    coll = client.get_or_create_collection(name=collection_name)
    coll.add(documents=docs, metadatas=metadatas, ids=ids, embeddings=embeddings)
    print(f"Indexed {len(docs)} chunks from {file_path} into collection '{collection_name}'")
```

External interactions are an environment: `load_document` yields the file's
text (extraction failures propagate in Python and are outside the claims
considered here), `embed_chunk` is the combined outcome of the per-chunk
embed call plus `extract_vec_from_resp` (`none` when the call raised or no
vector could be extracted; an extracted empty vector is also falsy and
handled by the `if not vec` check), `uuid` is the stream of `uuid4()` draws.
The Python function `return`s `None` on every path; the model records the
returned value (`retval`, always `none` here) and the list of `coll.add`
store writes. -/

/-- `s.replace("\r", "\n")`. -/
def replaceCR (l : List Char) : List Char :=
  l.map fun c => if c = '\r' then '\n' else c

/-- A maximal pending run of `n` newlines, collapsed: runs of 3 or more
become exactly two. -/
def collapseRun (n : Nat) : List Char :=
  if n ≥ 3 then ['\n', '\n'] else List.replicate n '\n'

/-- Scans the text accumulating the current newline run in `pending`,
emitting it collapsed at each run boundary. -/
def collapseNewlinesAux : Nat → List Char → List Char
  | pending, [] => collapseRun pending
  | pending, c :: rest =>
    if c = '\n' then collapseNewlinesAux (pending + 1) rest
    else collapseRun pending ++ c :: collapseNewlinesAux 0 rest

/-- `re.sub(r"\n{3,}", "\n\n", s)`: every maximal run of 3 or more newlines
becomes exactly two (runs of 1 or 2 are unchanged). -/
def collapseNewlines (l : List Char) : List Char :=
  collapseNewlinesAux 0 l

/-- `clean_text(s)`. -/
def clean_text (s : String) : String :=
  String.mk (pyStrip (collapseNewlines (replaceCR s.data)))

/-- `os.path.basename` (POSIX): the part after the last `/`. -/
def pyBasename (s : String) : String :=
  String.mk ((s.data.reverse.takeWhile (· != '/')).reverse)

/-- The metadata persisted for one chunk (`end` is a Lean keyword, spelled
`end_`). -/
structure ChunkMeta where
  source : String
  chunk_index : Nat
  start : Nat
  end_ : Nat
  deriving DecidableEq, Repr

/-- One `coll.add(...)` call to the vector store. -/
structure AddCall where
  collection : String
  documents : List (List Char)
  metadatas : List ChunkMeta
  ids : List String
  embeddings : List (List Int)
  deriving DecidableEq, Repr

/-- Environment of external-call outcomes for one `index_document` run. -/
structure IngestEnv where
  load_document : String → String
  embed_chunk : List Char → Option (List Int)
  uuid : Nat → String

/-- A chunk that survived the per-chunk embedding loop, with its enumeration
index and vector. -/
structure KeptChunk where
  chunk_index : Nat
  chunk : List Char
  start : Nat
  end_ : Nat
  vec : List Int
  deriving DecidableEq, Repr

/-- The per-chunk loop of `index_document`: skip a chunk when the embed call
fails or the extracted vector is falsy (`None` or `[]`). -/
def keptOf (env : IngestEnv) (chunks : List ChunkTriple) : List KeptChunk :=
  chunks.enum.filterMap fun p =>
    match env.embed_chunk p.2.1 with
    | none => none
    | some v =>
      if v = [] then none
      else some { chunk_index := p.1, chunk := p.2.1, start := p.2.2.1,
                  end_ := p.2.2.2, vec := v }

/-- The single batched `coll.add` built from the surviving chunks. -/
def mkAddCall (env : IngestEnv) (file_path collection_name : String)
    (kept : List KeptChunk) : AddCall where
  collection := collection_name
  documents := kept.map (·.chunk)
  metadatas := kept.map fun k =>
    { source := pyBasename file_path, chunk_index := k.chunk_index,
      start := k.start, end_ := k.end_ }
  ids := (List.range kept.length).map env.uuid
  embeddings := kept.map (·.vec)

/-- Observable outcome of `index_document`: the Python return value and the
store writes performed.  The outer `none` models the non-terminating
chunking loop (`chunk_size ≤ chunk_overlap`). -/
structure IndexResult where
  retval : Option Nat
  adds : List AddCall
  deriving DecidableEq, Repr

/-- `index_document(file_path, collection_name, chunk_size, chunk_overlap)`. -/
def index_document (env : IngestEnv) (file_path collection_name : String)
    (chunk_size chunk_overlap : Nat) : Option IndexResult :=
  let raw := env.load_document file_path
  if raw = "" ∨ pyStripStr raw = "" then
    -- "Skipping empty file": bare `return`, no store interaction
    some { retval := none, adds := [] }
  else
    match chunk_text (clean_text raw).data chunk_size chunk_overlap with
    | none => none
    | some chunks =>
      let kept := keptOf env chunks
      if kept.isEmpty then
        -- "No chunks indexed": bare `return`, no store interaction
        some { retval := none, adds := [] }
      else
        some { retval := none,
               adds := [mkAddCall env file_path collection_name kept] }

/-- Environment for the C6 witness/counterexample: a two-character file, an
embedding provider that always succeeds. -/
def envIngest : IngestEnv where
  load_document := fun _ => "ab"
  embed_chunk := fun _ => some [1]
  uuid := fun _ => "id0"

/-! ### Claim theorems about the indexer -/

/-- **C6 counterexample.** The claim says `index_document` returns the count
of records written.  Here one chunk is embedded and written (the single add
call carries exactly one document), yet the function's returned value is
Python's `None` — not the count `1`; the code only *prints* the count. -/
theorem index_document_returns_none :
    (index_document envIngest "dir/f.txt" "hr_policies_text768" 10 0).map
        IndexResult.retval = some none ∧
    (index_document envIngest "dir/f.txt" "hr_policies_text768" 10 0).map
        (fun r => r.adds.map fun a => a.documents.length) = some [1] := by
  decide

/-- **C6 amended.** `index_document` always returns `None` (it never returns
a count; the count of records written is only printed).  When the file yields
no extractable text, or when zero chunks are successfully embedded, it
performs no store write and raises no error; when at least one chunk is
embedded, all successfully embedded chunks are written to the named
collection in a single add call. -/
theorem index_document_spec (env : IngestEnv) (file_path collection_name : String)
    (chunk_size chunk_overlap : Nat) (h : chunk_overlap < chunk_size) :
    ∃ r, index_document env file_path collection_name chunk_size chunk_overlap = some r ∧
      r.retval = none ∧
      ((env.load_document file_path = "" ∨ pyStripStr (env.load_document file_path) = "") →
        r.adds = []) ∧
      (¬(env.load_document file_path = "" ∨ pyStripStr (env.load_document file_path) = "") →
        ∀ chunks, chunk_text (clean_text (env.load_document file_path)).data
            chunk_size chunk_overlap = some chunks →
          (keptOf env chunks = [] → r.adds = []) ∧
          (keptOf env chunks ≠ [] →
            r.adds = [mkAddCall env file_path collection_name (keptOf env chunks)])) := by
  by_cases hraw : env.load_document file_path = "" ∨
      pyStripStr (env.load_document file_path) = ""
  · refine ⟨{ retval := none, adds := [] }, ?_, rfl, fun _ => rfl,
      fun hn => absurd hraw hn⟩
    unfold index_document
    rw [if_pos hraw]
  · obtain ⟨l, hl, -⟩ := chunk_text_loop_total
      (clean_text (env.load_document file_path)).data chunk_size chunk_overlap h
      ((clean_text (env.load_document file_path)).data.length + 1) 0 (by omega)
    have hct : chunk_text (clean_text (env.load_document file_path)).data
        chunk_size chunk_overlap = some l := hl
    by_cases hk : (keptOf env l).isEmpty
    · refine ⟨{ retval := none, adds := [] }, ?_, rfl, fun hcon => absurd hcon hraw, ?_⟩
      · unfold index_document
        rw [if_neg hraw, hct]
        simp [hk]
      · intro _ chunks hchunks
        have hcl : chunks = l := by
          rw [hct] at hchunks
          exact (Option.some.inj hchunks).symm
        subst hcl
        exact ⟨fun _ => rfl, fun hne => absurd (List.isEmpty_iff.mp hk) hne⟩
    · refine ⟨⟨none, [mkAddCall env file_path collection_name (keptOf env l)]⟩,
        ?_, rfl, fun hcon => absurd hcon hraw, ?_⟩
      · unfold index_document
        rw [if_neg hraw, hct]
        simp [hk]
      · intro _ chunks hchunks
        have hcl : chunks = l := by
          rw [hct] at hchunks
          exact (Option.some.inj hchunks).symm
        subst hcl
        exact ⟨fun heq => absurd heq (by simpa [List.isEmpty_iff] using hk),
          fun _ => rfl⟩

/-- Witness for the amended C6. -/
theorem index_document_spec_witness :
    (0 : Nat) < 10 ∧
    ∃ r, index_document envIngest "dir/f.txt" "hr_policies_text768" 10 0 = some r ∧
      r.retval = none ∧
      ((envIngest.load_document "dir/f.txt" = "" ∨
          pyStripStr (envIngest.load_document "dir/f.txt") = "") → r.adds = []) ∧
      (¬(envIngest.load_document "dir/f.txt" = "" ∨
          pyStripStr (envIngest.load_document "dir/f.txt") = "") →
        ∀ chunks, chunk_text (clean_text (envIngest.load_document "dir/f.txt")).data
            10 0 = some chunks →
          (keptOf envIngest chunks = [] → r.adds = []) ∧
          (keptOf envIngest chunks ≠ [] →
            r.adds = [mkAddCall envIngest "dir/f.txt" "hr_policies_text768"
              (keptOf envIngest chunks)])) :=
  ⟨by decide, index_document_spec envIngest "dir/f.txt" "hr_policies_text768" 10 0 (by decide)⟩

end HRAssistant
